import Mathlib

/-!
Verification of the calendar-synchronization core: the webhook request gate
(NotificationChannel.validate_post_request and the timestamp update in main),
the sync decision engine (check_if_event_type_is_default,
check_calendars_in_attendees, get_attendee_response_status,
check_what_to_do_with_event), and the payload transform
(EventData.get_event_details, EventData.pop_unnecessary_keys,
EventData.check_if_id_exists_in_target_calendar).

Modelling conventions:
- Python strings are lists of characters (PyStr); Python str.strip and the
  substring test are modelled by pyStrip and list infix.
- Timestamps are integers counting microseconds (datetime arithmetic is exact
  on microseconds); one second is the constant oneSecond.
- Python dicts are association lists with first-match lookup; assignment
  replaces the first matching key in place or appends at the end, as CPython
  dict assignment does for the unique-key dicts the program builds.
- Optional values are Option; Python truthiness of an Optional dict
  (None and the empty dict are falsy) is pyTruthy.
-/

namespace CalendarSync

/-- One second in microseconds, matching timedelta with seconds equal to 1. -/
def oneSecond : Int := 1000000

/-- Model of NotificationChannel.validate_post_request
(project_notification_channel_class.py, lines 105-126).  The flask request
method and the X-Goog-Resource-State header are passed as arguments; an
absent header is Option.none. -/
def validate_post_request (time_now last_update_timestamp : Int)
    (method : String) (resource_state : Option String) : String :=
  if last_update_timestamp > time_now - oneSecond then "208"
  else if method ≠ "POST" then "405"
  else if resource_state = some "sync" then "200"
  else if resource_state = some "exists" then "exists"
  else if resource_state = none then "400"
  else "202"

/-- Model of the debounce-timestamp update in main (project.py, lines 91-101):
the global last_update_timestamp is set to time_now exactly when
validate_post_request returned "exists"; no later line of main writes it. -/
def mainUpdatedTimestamp (time_now last_update_timestamp : Int)
    (method : String) (resource_state : Option String) : Int :=
  if validate_post_request time_now last_update_timestamp method resource_state
      = "exists"
  then time_now else last_update_timestamp

/-- Python string: a list of characters. -/
abbrev PyStr := List Char

/-- The characters Python str.strip removes, that is, those with a true
str.isspace: the ASCII whitespace 0x09-0x0D, 0x1C-0x1F and 0x20, and the
Unicode whitespace NEL 0x85, NBSP 0xA0, Ogham space mark 0x1680, the spaces
0x2000-0x200A, the line and paragraph separators 0x2028 and 0x2029, narrow
no-break space 0x202F, medium mathematical space 0x205F, and ideographic
space 0x3000. -/
def isPySpace (c : Char) : Bool :=
  (9 ≤ c.toNat && c.toNat ≤ 13) || c.toNat == 32 ||
  (28 ≤ c.toNat && c.toNat ≤ 31) ||
  c.toNat == 133 || c.toNat == 160 || c.toNat == 5760 ||
  (8192 ≤ c.toNat && c.toNat ≤ 8202) ||
  c.toNat == 8232 || c.toNat == 8233 || c.toNat == 8239 ||
  c.toNat == 8287 || c.toNat == 12288

/-- Python str.strip: drop whitespace from the front, then from the back. -/
def pyStrip (s : PyStr) : PyStr :=
  ((s.dropWhile isPySpace).reverse.dropWhile isPySpace).reverse

/-- Python dict.get with a default: value of the first pair whose key matches. -/
def dictGetD (d : List (String × α)) (k : String) (dflt : α) : α :=
  match d with
  | [] => dflt
  | p :: t => if p.1 == k then p.2 else dictGetD t k dflt

/-- Python dict assignment d[k] = v: replace the value at the first matching
key keeping its position, or append the pair when the key is absent. -/
def dictSet (d : List (String × α)) (k : String) (v : α) : List (String × α) :=
  match d with
  | [] => [(k, v)]
  | p :: t => if p.1 == k then (k, v) :: t else p :: dictSet t k v

/-- An event payload as the program handles it for the transform: an open
dict from string keys to string values. -/
abbrev EventDict := List (String × PyStr)

/-- The configuration fields the core reads (config.ini via Config).  The
Python attribute named like a prepended marker is prefixVal here because the
source name is not usable in Lean; empty string means the option is unset
(Python falsy). -/
structure Config where
  calendarId : String
  targetCalendarId : String
  prefixVal : PyStr
  color : PyStr
  suffix : PyStr
deriving DecidableEq

/-- The two-newline separator inserted before the description suffix. -/
def nl2 : PyStr := ['\n', '\n']

/-- Model of EventData.get_event_details (project_event_data.py, lines
148-180): copy the event, prepend the configured marker to the summary when
it is not already a prefix of it, overwrite colorId when configured, and
append the configured description suffix when it is not already a substring
of the description, stripping the result. -/
def get_event_details (event : EventDict) (config : Config) : EventDict :=
  let data0 := event
  let data1 :=
    if config.prefixVal ≠ [] then
      let event_summary := dictGetD event "summary" []
      if ¬ (config.prefixVal <+: event_summary) then
        dictSet data0 "summary" (config.prefixVal ++ ' ' :: event_summary)
      else data0
    else data0
  let data2 :=
    if config.color ≠ [] then dictSet data1 "colorId" config.color else data1
  let description := dictGetD event "description" []
  if config.suffix ≠ [] then
    if ¬ (config.suffix <:+: description) then
      dictSet data2 "description" (pyStrip (description ++ nl2 ++ config.suffix))
    else data2
  else data2

/-- The eleven keys removed by EventData.pop_unnecessary_keys. -/
def keys_to_pop : List String :=
  ["created", "creator", "etag", "htmlLink", "iCalUID", "kind",
   "originalStartTime", "organizer", "recurringEventId", "sequence", "updated"]

/-- Model of EventData.pop_unnecessary_keys (project_event_data.py, lines
196-212): keep exactly the pairs whose key is not in keys_to_pop, in order. -/
def pop_unnecessary_keys (data : List (String × α)) : List (String × α) :=
  data.filter (fun p => decide (p.1 ∉ keys_to_pop))

/-- An attendee record: both fields are optional in the provider payload. -/
structure Attendee where
  email : Option String
  responseStatus : Option String
deriving DecidableEq

/-- The structured fields of a changed event that the classification code
reads.  Absent dict keys are Option.none. -/
structure Event where
  id : Option String
  status : Option String
  eventType : Option String
  summary : Option String
  attendees : Option (List Attendee)
deriving DecidableEq

/-- Model of check_if_event_type_is_default (project.py, lines 226-245). -/
def check_if_event_type_is_default (event : Event) : Bool :=
  event.eventType == some "default"

/-- Model of EventData.check_calendars_in_attendees (project_event_data.py,
lines 342-360): an attendee with no email compares as the empty string. -/
def check_calendars_in_attendees (event : Event) (config : Config) :
    Option String :=
  let attendees := event.attendees.getD []
  if attendees = [] then none
  else
    let calendar_id_in_attendees :=
      attendees.any (fun a => a.email.getD "" == config.calendarId)
    let target_calendar_id_in_attendees :=
      attendees.any (fun a => a.email.getD "" == config.targetCalendarId)
    if calendar_id_in_attendees && target_calendar_id_in_attendees then
      some "Both"
    else if calendar_id_in_attendees && !target_calendar_id_in_attendees then
      some "Main"
    else if !calendar_id_in_attendees && target_calendar_id_in_attendees then
      some "Target"
    else none

/-- The attendee loop of get_attendee_response_status: the responseStatus of
the first attendee whose email equals the given address, or none. -/
def findRespStatus (email : String) : List Attendee → Option String
  | [] => none
  | a :: rest =>
    if a.email == some email then a.responseStatus
    else findRespStatus email rest

/-- Model of EventData.get_attendee_response_status (project_event_data.py,
lines 239-246): none when the event has no attendees key, else scan the
attendee list. -/
def get_attendee_response_status (event : Event) (email : String) :
    Option String :=
  match event.attendees with
  | none => none
  | some attendees => findRespStatus email attendees

/-- A target-calendar event record; its contents never matter, only presence
and emptiness. -/
abbrev TargetDict := List (String × String)

/-- Python truthiness of the Optional target-event dict: None and the empty
dict are falsy. -/
def pyTruthy : Option TargetDict → Bool
  | none => false
  | some [] => false
  | some (_ :: _) => true

/-- Model of check_what_to_do_with_event (project.py, lines 248-267). -/
def check_what_to_do_with_event (target_event : Option TargetDict)
    (status : String) (response_status : Option String) : String :=
  if !(pyTruthy target_event) && status != "cancelled"
      && response_status != some "declined" then "create"
  else if pyTruthy target_event
      && (status == "cancelled" || response_status == some "declined") then
    "delete"
  else "update"

/-- An HTTP error raised by the provider client, carrying its status code. -/
structure HttpErrorInfo where
  statusCode : Nat
deriving DecidableEq

/-- Model of EventData.check_if_id_exists_in_target_calendar
(project_event_data.py, lines 280-291): the provider call either returns the
target event or raises HttpError; the except HttpError branch returns None
whatever the status code of the error is. -/
def check_if_id_exists_in_target_calendar
    (providerResult : Except HttpErrorInfo TargetDict) : Option TargetDict :=
  match providerResult with
  | Except.ok target_event => some target_event
  | Except.error _ => none

/-- Outcome of the per-event body of the sync loop in main. -/
inductive Outcome where
  | skipEventType
  | skipBoth
  | act (action : String)
deriving DecidableEq

/-- Model of the per-event body of main (project.py, lines 137-201): skip on
a non-default event type, skip when both calendars are attendees, otherwise
look the event up in the target calendar and dispatch on
check_what_to_do_with_event.  The target lookup is an oracle argument so that
theorems can quantify over every possible lookup outcome. -/
def processEvent (event : Event) (config : Config)
    (lookupTarget : String → Option TargetDict) : Outcome :=
  if ¬ check_if_event_type_is_default event then Outcome.skipEventType
  else if check_calendars_in_attendees event config = some "Both" then
    Outcome.skipBoth
  else
    let event_id := event.id.getD ""
    let status := event.status.getD ""
    let target_event := lookupTarget event_id
    let response_status := get_attendee_response_status event config.calendarId
    Outcome.act (check_what_to_do_with_event target_event status response_status)

/-- Helper: a validation that returns "exists" must have passed the duplicate
check, so the stored timestamp is at least one second old. -/
lemma validate_exists_not_dup {time_now last_update_timestamp : Int}
    {method : String} {resource_state : Option String}
    (h : validate_post_request time_now last_update_timestamp method
      resource_state = "exists") :
    ¬ last_update_timestamp > time_now - oneSecond := by
  intro hgt
  unfold validate_post_request at h
  rw [if_pos hgt] at h
  exact absurd h (by decide)

/-- Claim C1: validate evaluates the six rules of the decision table in the
spec's order with first match winning: a timestamp younger than one second
gives "208" regardless of method and header; otherwise a non-POST method
gives "405"; otherwise header "sync" gives "200"; otherwise header "exists"
gives "exists"; otherwise an absent header gives "400"; otherwise any other
header value gives "202". -/
theorem C1_gate_decision_table (time_now last_update_timestamp : Int)
    (method : String) (resource_state : Option String) :
    (last_update_timestamp > time_now - oneSecond →
      validate_post_request time_now last_update_timestamp method resource_state
        = "208") ∧
    (¬ last_update_timestamp > time_now - oneSecond → method ≠ "POST" →
      validate_post_request time_now last_update_timestamp method resource_state
        = "405") ∧
    (¬ last_update_timestamp > time_now - oneSecond → method = "POST" →
      resource_state = some "sync" →
      validate_post_request time_now last_update_timestamp method resource_state
        = "200") ∧
    (¬ last_update_timestamp > time_now - oneSecond → method = "POST" →
      resource_state = some "exists" →
      validate_post_request time_now last_update_timestamp method resource_state
        = "exists") ∧
    (¬ last_update_timestamp > time_now - oneSecond → method = "POST" →
      resource_state = none →
      validate_post_request time_now last_update_timestamp method resource_state
        = "400") ∧
    (¬ last_update_timestamp > time_now - oneSecond → method = "POST" →
      resource_state ≠ some "sync" → resource_state ≠ some "exists" →
      resource_state ≠ none →
      validate_post_request time_now last_update_timestamp method resource_state
        = "202") := by
  refine ⟨?_, ?_, ?_, ?_, ?_, ?_⟩
  · intro h1
    unfold validate_post_request
    rw [if_pos h1]
  · intro h1 h2
    unfold validate_post_request
    rw [if_neg h1, if_pos h2]
  · intro h1 h2 h3
    unfold validate_post_request
    rw [if_neg h1, if_neg (by simp [h2]), if_pos h3]
  · intro h1 h2 h3
    unfold validate_post_request
    rw [if_neg h1, if_neg (by simp [h2]), if_neg (by simp [h3]), if_pos h3]
  · intro h1 h2 h3
    unfold validate_post_request
    rw [if_neg h1, if_neg (by simp [h2]), if_neg (by simp [h3]),
      if_neg (by simp [h3]), if_pos h3]
  · intro h1 h2 h3 h4 h5
    unfold validate_post_request
    rw [if_neg h1, if_neg (by simp [h2]), if_neg h3, if_neg h4, if_neg h5]

/-- Witness for C1: each of the six rules fires at a concrete input. -/
theorem C1_gate_decision_table_witness :
    validate_post_request 5000000 4500000 "GET" none = "208" ∧
    validate_post_request 5000000 3000000 "GET" (some "exists") = "405" ∧
    validate_post_request 5000000 3000000 "POST" (some "sync") = "200" ∧
    validate_post_request 5000000 3000000 "POST" (some "exists") = "exists" ∧
    validate_post_request 5000000 3000000 "POST" none = "400" ∧
    validate_post_request 5000000 3000000 "POST" (some "updated") = "202" :=
  ⟨(C1_gate_decision_table 5000000 4500000 "GET" none).1 (by decide),
   (C1_gate_decision_table 5000000 3000000 "GET" (some "exists")).2.1
     (by decide) (by decide),
   (C1_gate_decision_table 5000000 3000000 "POST" (some "sync")).2.2.1
     (by decide) (by decide) rfl,
   (C1_gate_decision_table 5000000 3000000 "POST" (some "exists")).2.2.2.1
     (by decide) (by decide) rfl,
   (C1_gate_decision_table 5000000 3000000 "POST" none).2.2.2.2.1
     (by decide) (by decide) rfl,
   (C1_gate_decision_table 5000000 3000000 "POST" (some "updated")).2.2.2.2.2
     (by decide) (by decide) (by decide) (by decide) (by decide)⟩

/-- Claim C4: only the "exists" (PROCESS) outcome of validate updates the
shared debounce timestamp; every other outcome leaves it unchanged; when it
is updated it becomes the same time_now passed to validate, which then
satisfies time_now greater or equal last plus one second; in all cases the
timestamp is monotonically non-decreasing. -/
theorem C4_timestamp_update (time_now last_update_timestamp : Int)
    (method : String) (resource_state : Option String) :
    (validate_post_request time_now last_update_timestamp method resource_state
        ≠ "exists" →
      mainUpdatedTimestamp time_now last_update_timestamp method resource_state
        = last_update_timestamp) ∧
    (validate_post_request time_now last_update_timestamp method resource_state
        = "exists" →
      mainUpdatedTimestamp time_now last_update_timestamp method resource_state
          = time_now ∧
        time_now ≥ last_update_timestamp + oneSecond) ∧
    mainUpdatedTimestamp time_now last_update_timestamp method resource_state
      ≥ last_update_timestamp := by
  refine ⟨?_, ?_, ?_⟩
  · intro h
    unfold mainUpdatedTimestamp
    rw [if_neg h]
  · intro h
    have hdup := validate_exists_not_dup h
    unfold mainUpdatedTimestamp
    rw [if_pos h]
    refine ⟨rfl, ?_⟩
    unfold oneSecond at hdup ⊢
    omega
  · by_cases h : validate_post_request time_now last_update_timestamp method
        resource_state = "exists"
    · have hdup := validate_exists_not_dup h
      unfold mainUpdatedTimestamp
      rw [if_pos h]
      unfold oneSecond at hdup
      omega
    · unfold mainUpdatedTimestamp
      rw [if_neg h]

/-- Witness for C4: a rejected call keeps the timestamp, a processed call
advances it to the now value. -/
theorem C4_timestamp_update_witness :
    mainUpdatedTimestamp 5000000 4500000 "POST" (some "exists") = 4500000 ∧
    mainUpdatedTimestamp 5000000 3000000 "POST" (some "exists") = 5000000 ∧
    (5000000 : Int) ≥ 3000000 + oneSecond :=
  ⟨(C4_timestamp_update 5000000 4500000 "POST" (some "exists")).1 (by decide),
   ((C4_timestamp_update 5000000 3000000 "POST" (some "exists")).2.1
     (by decide)).1,
   ((C4_timestamp_update 5000000 3000000 "POST" (some "exists")).2.1
     (by decide)).2⟩

/-- Claim C2: the action table with its exact precedence: an absent (falsy)
target with status not "cancelled" and response not "declined" gives
"create"; a present target with status "cancelled" or response "declined"
gives "delete"; every remaining combination gives "update", including the
fallback of an absent target whose event is cancelled or declined. -/
theorem C2_action_table (target_event : Option TargetDict) (status : String)
    (response_status : Option String) :
    (pyTruthy target_event = false → status ≠ "cancelled" →
      response_status ≠ some "declined" →
      check_what_to_do_with_event target_event status response_status
        = "create") ∧
    (pyTruthy target_event = true →
      (status = "cancelled" ∨ response_status = some "declined") →
      check_what_to_do_with_event target_event status response_status
        = "delete") ∧
    (pyTruthy target_event = false →
      (status = "cancelled" ∨ response_status = some "declined") →
      check_what_to_do_with_event target_event status response_status
        = "update") ∧
    (pyTruthy target_event = true → status ≠ "cancelled" →
      response_status ≠ some "declined" →
      check_what_to_do_with_event target_event status response_status
        = "update") := by
  refine ⟨?_, ?_, ?_, ?_⟩
  · intro h1 h2 h3
    unfold check_what_to_do_with_event
    rw [if_pos (by simp [h1, h2, h3])]
  · intro h1 h2
    unfold check_what_to_do_with_event
    rw [if_neg (by simp [h1]), if_pos ?_]
    rcases h2 with h | h <;> simp [h1, h]
  · intro h1 h2
    unfold check_what_to_do_with_event
    rw [if_neg ?_, if_neg (by simp [h1])]
    rcases h2 with h | h <;> simp [h]
  · intro h1 h2 h3
    unfold check_what_to_do_with_event
    rw [if_neg (by simp [h1]), if_neg (by simp [h2, h3])]

/-- Witness for C2: each of the four rows fires at a concrete input. -/
theorem C2_action_table_witness :
    check_what_to_do_with_event none "confirmed" none = "create" ∧
    check_what_to_do_with_event (some [("id", "e1")]) "cancelled" none
      = "delete" ∧
    check_what_to_do_with_event none "cancelled" none = "update" ∧
    check_what_to_do_with_event (some [("id", "e1")]) "confirmed"
      (some "accepted") = "update" :=
  ⟨(C2_action_table none "confirmed" none).1 rfl (by decide) (by decide),
   (C2_action_table (some [("id", "e1")]) "cancelled" none).2.1 rfl
     (Or.inl rfl),
   (C2_action_table none "cancelled" none).2.2.1 rfl (Or.inl rfl),
   (C2_action_table (some [("id", "e1")]) "confirmed" (some "accepted")).2.2.2
     rfl (by decide) (by decide)⟩

/-- Claim C10: the action function is total with range exactly the three
strings "create", "delete", "update"; it never returns "skip"; an empty
target-event record is treated the same as an absent one. -/
theorem C10_action_total (target_event : Option TargetDict) (status : String)
    (response_status : Option String) :
    (check_what_to_do_with_event target_event status response_status = "create"
      ∨ check_what_to_do_with_event target_event status response_status
        = "delete"
      ∨ check_what_to_do_with_event target_event status response_status
        = "update") ∧
    check_what_to_do_with_event target_event status response_status ≠ "skip" ∧
    check_what_to_do_with_event (some []) status response_status
      = check_what_to_do_with_event none status response_status := by
  refine ⟨?_, ?_, rfl⟩
  · unfold check_what_to_do_with_event
    split_ifs <;> simp
  · unfold check_what_to_do_with_event
    split_ifs <;> decide

/-- Witness for C10: the theorem instantiated at a concrete input. -/
theorem C10_action_total_witness :
    (check_what_to_do_with_event none "confirmed" none = "create"
      ∨ check_what_to_do_with_event none "confirmed" none = "delete"
      ∨ check_what_to_do_with_event none "confirmed" none = "update") ∧
    check_what_to_do_with_event none "confirmed" none ≠ "skip" ∧
    check_what_to_do_with_event (some []) "confirmed" none
      = check_what_to_do_with_event none "confirmed" none :=
  C10_action_total none "confirmed" none

/-- Claim C3 counterexample: a provider failure with HTTP status 500 — not a
"not found" response — is mapped to none, that is, reported as absence of the
target event, refuting the claim that only a not-found response is mapped to
absence. -/
theorem C3_counterexample :
    check_if_id_exists_in_target_calendar
        (Except.error (⟨500⟩ : HttpErrorInfo)) = none ∧
      (500 : Nat) ≠ 404 :=
  ⟨rfl, by decide⟩

/-- Claim C3 as amended: the lookup returns the target event on a successful
provider call and none on every HttpError, whatever its status code; the
except-HttpError branch does not distinguish not-found from any other
provider error. -/
theorem C3_amended :
    (∀ target_event : TargetDict,
      check_if_id_exists_in_target_calendar (Except.ok target_event)
        = some target_event) ∧
    (∀ e : HttpErrorInfo,
      check_if_id_exists_in_target_calendar (Except.error e) = none) :=
  ⟨fun _ => rfl, fun _ => rfl⟩

/-- Claim C6: after pop_unnecessary_keys, none of the eleven listed keys is
present in the payload, whatever the input contained. -/
theorem C6_stripped_keys {α : Type} (data : List (String × α)) (k : String)
    (hk : k ∈ keys_to_pop) :
    k ∉ (pop_unnecessary_keys data).map Prod.fst := by
  intro hmem
  rcases List.mem_map.mp hmem with ⟨p, hp, hfst⟩
  rcases List.mem_filter.mp hp with ⟨_, hdec⟩
  exact of_decide_eq_true hdec (by rw [hfst]; exact hk)

/-- Witness for C6: an input holding all eleven keys plus ordinary fields
loses each of the eleven. -/
def allSystemKeysEvent : List (String × Nat) :=
  [("created", 0), ("creator", 1), ("etag", 2), ("htmlLink", 3),
   ("iCalUID", 4), ("kind", 5), ("originalStartTime", 6), ("organizer", 7),
   ("recurringEventId", 8), ("sequence", 9), ("updated", 10),
   ("summary", 11), ("id", 12)]

theorem C6_stripped_keys_witness :
    "etag" ∉ (pop_unnecessary_keys allSystemKeysEvent).map Prod.fst :=
  C6_stripped_keys allSystemKeysEvent "etag" (by decide)

/-- Claim C9: pop_unnecessary_keys changes nothing except removing the eleven
keys: the output is a sublist of the input (so no new pairs and no
reordering), and a pair whose key is not in the list is in the output exactly
when it is in the input. -/
theorem C9_pop_frame {α : Type} (data : List (String × α)) (k : String)
    (v : α) :
    (∀ p, p ∈ pop_unnecessary_keys data → p ∈ data) ∧
    List.Sublist (pop_unnecessary_keys data) data ∧
    (k ∉ keys_to_pop →
      ((k, v) ∈ pop_unnecessary_keys data ↔ (k, v) ∈ data)) := by
  refine ⟨?_, List.filter_sublist data, ?_⟩
  · intro p hp
    exact (List.mem_filter.mp hp).1
  · intro hk
    constructor
    · intro h
      exact (List.mem_filter.mp h).1
    · intro h
      exact List.mem_filter.mpr ⟨h, decide_eq_true hk⟩

/-- Witness for C9: an ordinary key survives with its value. -/
theorem C9_pop_frame_witness :
    ("summary", 7) ∈ pop_unnecessary_keys [("etag", 3), ("summary", 7)] ↔
      ("summary", 7) ∈ [("etag", 3), ("summary", 7)] :=
  (C9_pop_frame [("etag", 3), ("summary", 7)] "summary" 7).2.2 (by decide)

/-- Claim C7: an event whose eventType is not "default" (including an absent
eventType) is skipped with outcome skipEventType, independently of all other
fields of the event, of the configuration, and of every possible target
lookup — in particular no target lookup is consulted. -/
theorem C7_skip_non_default (event : Event) (config : Config)
    (lookupTarget : String → Option TargetDict)
    (h : event.eventType ≠ some "default") :
    processEvent event config lookupTarget = Outcome.skipEventType := by
  unfold processEvent
  rw [if_pos (by simp [check_if_event_type_is_default, h])]

/-- Witness for C7: a birthday event is skipped even when the lookup oracle
would report a target hit. -/
def birthdayEvent : Event :=
  ⟨some "e2", some "confirmed", some "birthday", some "Party",
   some [⟨some "a@x", some "accepted"⟩]⟩

def witnessConfig : Config :=
  ⟨"a@x", "b@x", ['[', 'P', ']'], ['5'], ['b', 'y', ' ', 's']⟩

theorem C7_skip_non_default_witness :
    processEvent birthdayEvent witnessConfig (fun _ => some [("id", "e2")])
      = Outcome.skipEventType :=
  C7_skip_non_default birthdayEvent witnessConfig
    (fun _ => some [("id", "e2")]) (by decide)

/-- The emails the attendee loop compares against: a missing email field
reads as the empty string. -/
def attendeeEmails (event : Event) : List String :=
  (event.attendees.getD []).map (fun a => a.email.getD "")

/-- Helper: the membership flag computed by the attendee loop holds exactly
when the identity appears among the attendee emails. -/
lemma any_email_eq_iff (atts : List Attendee) (x : String) :
    (atts.any (fun a => a.email.getD "" == x) = true) ↔
      x ∈ atts.map (fun a => a.email.getD "") := by
  simp [List.any_eq_true, List.mem_map]

/-- Claim C8: the dual-attendee classification returns "Both" exactly when
both the master and the target identity appear among the attendee emails,
"Main" when only the master identity does, "Target" when only the target
identity does, and none when neither appears (which covers an absent or
empty attendee list); and in the sync loop only the "Both" outcome skips the
event, while every other classification continues to the target lookup and
the action table. -/
theorem C8_dual_attendee (event : Event) (config : Config)
    (lookupTarget : String → Option TargetDict) :
    (check_calendars_in_attendees event config = some "Both" ↔
      config.calendarId ∈ attendeeEmails event ∧
      config.targetCalendarId ∈ attendeeEmails event) ∧
    (check_calendars_in_attendees event config = some "Main" ↔
      config.calendarId ∈ attendeeEmails event ∧
      config.targetCalendarId ∉ attendeeEmails event) ∧
    (check_calendars_in_attendees event config = some "Target" ↔
      config.calendarId ∉ attendeeEmails event ∧
      config.targetCalendarId ∈ attendeeEmails event) ∧
    (check_calendars_in_attendees event config = none ↔
      config.calendarId ∉ attendeeEmails event ∧
      config.targetCalendarId ∉ attendeeEmails event) ∧
    (check_if_event_type_is_default event = true →
      check_calendars_in_attendees event config = some "Both" →
      processEvent event config lookupTarget = Outcome.skipBoth) ∧
    (check_if_event_type_is_default event = true →
      check_calendars_in_attendees event config ≠ some "Both" →
      processEvent event config lookupTarget =
        Outcome.act (check_what_to_do_with_event
          (lookupTarget (event.id.getD "")) (event.status.getD "")
          (get_attendee_response_status event config.calendarId))) := by
  have hmem1 := any_email_eq_iff (event.attendees.getD []) config.calendarId
  have hmem2 := any_email_eq_iff (event.attendees.getD [])
    config.targetCalendarId
  refine ⟨?_, ?_, ?_, ?_, ?_, ?_⟩
  · unfold check_calendars_in_attendees attendeeEmails
    by_cases hA : event.attendees.getD [] = []
    · simp [hA]
    · rw [if_neg hA, ← hmem1, ← hmem2]
      by_cases hc : (event.attendees.getD []).any
          (fun a => a.email.getD "" == config.calendarId) = true <;>
        by_cases ht : (event.attendees.getD []).any
            (fun a => a.email.getD "" == config.targetCalendarId) = true <;>
        simp [hc, ht]
  · unfold check_calendars_in_attendees attendeeEmails
    by_cases hA : event.attendees.getD [] = []
    · simp [hA]
    · rw [if_neg hA, ← hmem1, ← hmem2]
      by_cases hc : (event.attendees.getD []).any
          (fun a => a.email.getD "" == config.calendarId) = true <;>
        by_cases ht : (event.attendees.getD []).any
            (fun a => a.email.getD "" == config.targetCalendarId) = true <;>
        simp [hc, ht]
  · unfold check_calendars_in_attendees attendeeEmails
    by_cases hA : event.attendees.getD [] = []
    · simp [hA]
    · rw [if_neg hA, ← hmem1, ← hmem2]
      by_cases hc : (event.attendees.getD []).any
          (fun a => a.email.getD "" == config.calendarId) = true <;>
        by_cases ht : (event.attendees.getD []).any
            (fun a => a.email.getD "" == config.targetCalendarId) = true <;>
        simp [hc, ht]
  · unfold check_calendars_in_attendees attendeeEmails
    by_cases hA : event.attendees.getD [] = []
    · simp [hA]
    · rw [if_neg hA, ← hmem1, ← hmem2]
      by_cases hc : (event.attendees.getD []).any
          (fun a => a.email.getD "" == config.calendarId) = true <;>
        by_cases ht : (event.attendees.getD []).any
            (fun a => a.email.getD "" == config.targetCalendarId) = true <;>
        simp [hc, ht]
  · intro hd hB
    unfold processEvent
    rw [if_neg (by simp [hd]), if_pos hB]
  · intro hd hnB
    unfold processEvent
    rw [if_neg (by simp [hd]), if_neg hnB]

/-- Witness for C8: an event listing both identities is classified "Both"
and skipped; an event listing only the master identity is classified "Main"
and proceeds to the action table. -/
theorem C8_dual_attendee_witness :
    processEvent
        ⟨some "e1", some "confirmed", some "default", some "S",
         some [⟨some "a@x", some "accepted"⟩, ⟨some "b@x", none⟩]⟩
        ⟨"a@x", "b@x", [], [], []⟩ (fun _ => none) = Outcome.skipBoth ∧
    processEvent
        ⟨some "e3", some "confirmed", some "default", some "S",
         some [⟨some "a@x", some "declined"⟩]⟩
        ⟨"a@x", "b@x", [], [], []⟩ (fun _ => some [("id", "e3")])
      = Outcome.act "delete" :=
  ⟨(C8_dual_attendee
      ⟨some "e1", some "confirmed", some "default", some "S",
       some [⟨some "a@x", some "accepted"⟩, ⟨some "b@x", none⟩]⟩
      ⟨"a@x", "b@x", [], [], []⟩ (fun _ => none)).2.2.2.2.1
    (by decide) (by decide),
   by
    have h := (C8_dual_attendee
        ⟨some "e3", some "confirmed", some "default", some "S",
         some [⟨some "a@x", some "declined"⟩]⟩
        ⟨"a@x", "b@x", [], [], []⟩ (fun _ => some [("id", "e3")])).2.2.2.2.2
      (by decide) (by decide)
    rw [h]
    decide⟩

/-- Helper: reading back the key just assigned gives the assigned value. -/
lemma dictGetD_dictSet_same (d : List (String × α)) (k : String)
    (v dflt : α) :
    dictGetD (dictSet d k v) k dflt = v := by
  induction d with
  | nil => simp [dictSet, dictGetD]
  | cons p t ih =>
    by_cases h : p.1 = k
    · simp [dictSet, dictGetD, h]
    · simp [dictSet, dictGetD, h, ih]

/-- Helper: assigning one key leaves every other key's lookup unchanged. -/
lemma dictGetD_dictSet_other (d : List (String × α)) (k k' : String)
    (v dflt : α) (hne : k' ≠ k) :
    dictGetD (dictSet d k v) k' dflt = dictGetD d k' dflt := by
  induction d with
  | nil => simp [dictSet, dictGetD, Ne.symm hne]
  | cons p t ih =>
    by_cases h : p.1 = k
    · simp [dictSet, dictGetD, h, Ne.symm hne]
    · by_cases h2 : p.1 = k'
      · simp [dictSet, dictGetD, h, h2, hne]
      · simp [dictSet, dictGetD, h, h2, ih]

/-- Characterization of the summary field produced by get_event_details:
the configured marker is prepended exactly when it is set and not already a
prefix of the summary; the colorId and description assignments do not touch
the summary. -/
lemma get_event_details_summary (event : EventDict) (config : Config) :
    dictGetD (get_event_details event config) "summary" [] =
      (if config.prefixVal ≠ [] ∧
          ¬ (config.prefixVal <+: dictGetD event "summary" []) then
        config.prefixVal ++ ' ' :: dictGetD event "summary" []
      else dictGetD event "summary" []) := by
  have hcol : ∀ (d : EventDict) (v : PyStr),
      dictGetD (dictSet d "colorId" v) "summary" []
        = dictGetD d "summary" [] :=
    fun d v => dictGetD_dictSet_other d "colorId" "summary" v [] (by decide)
  have hdesc : ∀ (d : EventDict) (v : PyStr),
      dictGetD (dictSet d "description" v) "summary" []
        = dictGetD d "summary" [] :=
    fun d v =>
      dictGetD_dictSet_other d "description" "summary" v [] (by decide)
  by_cases hp : config.prefixVal = [] <;>
    by_cases hpre : config.prefixVal <+: dictGetD event "summary" [] <;>
    by_cases hc : config.color = [] <;>
    by_cases hs : config.suffix = [] <;>
    by_cases hinf : config.suffix <:+: dictGetD event "description" [] <;>
    simp [get_event_details, hp, hpre, hc, hs, hinf, hcol, hdesc,
      dictGetD_dictSet_same]

/-- Characterization of the description field produced by get_event_details:
the configured suffix is appended (after two newlines, then stripped)
exactly when it is set and not already a substring of the description; the
summary and colorId assignments do not touch the description. -/
lemma get_event_details_description (event : EventDict) (config : Config) :
    dictGetD (get_event_details event config) "description" [] =
      (if config.suffix ≠ [] ∧
          ¬ (config.suffix <:+: dictGetD event "description" []) then
        pyStrip (dictGetD event "description" [] ++ nl2 ++ config.suffix)
      else dictGetD event "description" []) := by
  have hsum : ∀ (d : EventDict) (v : PyStr),
      dictGetD (dictSet d "summary" v) "description" []
        = dictGetD d "description" [] :=
    fun d v =>
      dictGetD_dictSet_other d "summary" "description" v [] (by decide)
  have hcol : ∀ (d : EventDict) (v : PyStr),
      dictGetD (dictSet d "colorId" v) "description" []
        = dictGetD d "description" [] :=
    fun d v =>
      dictGetD_dictSet_other d "colorId" "description" v [] (by decide)
  by_cases hp : config.prefixVal = [] <;>
    by_cases hpre : config.prefixVal <+: dictGetD event "summary" [] <;>
    by_cases hc : config.color = [] <;>
    by_cases hs : config.suffix = [] <;>
    by_cases hinf : config.suffix <:+: dictGetD event "description" [] <;>
    simp [get_event_details, hp, hpre, hc, hs, hinf, hsum, hcol,
      dictGetD_dictSet_same]

/-- Helper: when the appended suffix neither starts nor ends with
whitespace, it survives the final strip as a suffix of the result, hence as
a substring. -/
lemma suffix_infix_pyStrip (d sfx : PyStr) (hne : sfx ≠ [])
    (h1 : sfx.dropWhile isPySpace = sfx)
    (h2 : sfx.reverse.dropWhile isPySpace = sfx.reverse) :
    sfx <:+: pyStrip (d ++ nl2 ++ sfx) := by
  unfold pyStrip
  rw [List.dropWhile_append]
  by_cases he : ((d ++ nl2).dropWhile isPySpace).isEmpty
  · rw [if_pos he, h1, h2, List.reverse_reverse]
  · rw [if_neg he, List.reverse_append, List.dropWhile_append,
      if_neg (by simp [h2, hne]), h2, List.reverse_append,
      List.reverse_reverse, List.reverse_reverse]
    exact (List.suffix_append _ sfx).isInfix

/-- A configuration whose description suffix carries a trailing space. -/
def trailingSpaceConfig : Config := ⟨"a@x", "b@x", [], [], ['x', ' ']⟩

/-- Claim C5 counterexample: with a configured suffix that ends in a space,
the transform is not idempotent on the description.  On the empty event the
first application stores the stripped description "x", in which the suffix
"x " does not occur, so the second application appends it again. -/
theorem C5_counterexample :
    dictGetD (get_event_details (get_event_details [] trailingSpaceConfig)
        trailingSpaceConfig) "description" [] ≠
      dictGetD (get_event_details [] trailingSpaceConfig)
        "description" [] := by
  decide

/-- Claim C5 as amended: the transform is idempotent on the summary for
every event and policy; it is idempotent on the description provided the
configured suffix has no leading and no trailing whitespace (the two
dropWhile hypotheses), which the final strip of the appended text otherwise
removes. -/
theorem C5_amended (event : EventDict) (config : Config) :
    (dictGetD (get_event_details (get_event_details event config) config)
        "summary" [] =
      dictGetD (get_event_details event config) "summary" []) ∧
    (config.suffix.dropWhile isPySpace = config.suffix →
      config.suffix.reverse.dropWhile isPySpace = config.suffix.reverse →
      dictGetD (get_event_details (get_event_details event config) config)
          "description" [] =
        dictGetD (get_event_details event config) "description" []) := by
  constructor
  · rw [get_event_details_summary (get_event_details event config) config,
      get_event_details_summary event config]
    by_cases hp : config.prefixVal = []
    · simp [hp]
    · by_cases hpre : config.prefixVal <+: dictGetD event "summary" []
      · simp [hp, hpre]
      · simp [hp, hpre, List.prefix_append]
  · intro h1 h2
    rw [get_event_details_description (get_event_details event config) config,
      get_event_details_description event config]
    by_cases hs : config.suffix = []
    · simp [hs]
    · by_cases hinf : config.suffix <:+: dictGetD event "description" []
      · simp [hs, hinf]
      · have hInf2 := suffix_infix_pyStrip
          (dictGetD event "description" []) config.suffix hs h1 h2
        simp only [List.append_assoc] at hInf2
        simp [hs, hinf, hInf2]

/-- Witness for C5 as amended: a whitespace-free suffix and a set marker are
stable under a second application. -/
theorem C5_amended_witness :
    (dictGetD (get_event_details (get_event_details
          [("summary", ['h', 'i'])] witnessConfig) witnessConfig)
        "summary" [] =
      dictGetD (get_event_details [("summary", ['h', 'i'])] witnessConfig)
        "summary" []) ∧
    (dictGetD (get_event_details (get_event_details
          [("summary", ['h', 'i'])] witnessConfig) witnessConfig)
        "description" [] =
      dictGetD (get_event_details [("summary", ['h', 'i'])] witnessConfig)
        "description" []) :=
  ⟨(C5_amended [("summary", ['h', 'i'])] witnessConfig).1,
   (C5_amended [("summary", ['h', 'i'])] witnessConfig).2
     (by decide) (by decide)⟩

end CalendarSync
